import Mathlib

/-!
Verification of the hardware-abstraction-layer repository (`hw_layer.py` and
`hw_layer_chatgpt.py`) against its natural-language specification.

Shallow embedding conventions:
* Python numbers are modelled by `ℚ` (inputs, exact arithmetic) and `ℝ` where a
  square root occurs (`statistics.stdev`).
* Peripheral objects that may be absent (`distance_sensor_obj`, `mlx_sensor`,
  `button_obj`, ...) are modelled as `Option` parameters; a caught exception
  branch is modelled by a dedicated constructor of the input type.
* The lgpio echo/button busy-wait loops of `hw_layer_chatgpt.py` are modelled
  with an explicit fuel parameter over a discrete time line `ℕ → ℕ` giving the
  level of the line at each poll instant; `none` means the loop is still
  running after `fuel` polls, so `∀ fuel, result = none` expresses divergence.
* Python `round(x, k)` is round-half-to-even at `k` decimal digits, modelled by
  `roundHalfEvenQ` / `round2q` / `round1q` (and `round2r` on `ℝ`).
-/

/-- Round-half-to-even of a rational to an integer, as Python `round` does. -/
def roundHalfEvenQ (y : ℚ) : ℤ :=
  let f := ⌊y⌋
  let r := y - f
  if r < 1/2 then f
  else if 1/2 < r then f + 1
  else if f % 2 = 0 then f else f + 1

/-- Python `round(x, 2)` on rationals. -/
def round2q (x : ℚ) : ℚ := (roundHalfEvenQ (x * 100) : ℚ) / 100

/-- Python `round(x, 1)` on rationals. -/
def round1q (x : ℚ) : ℚ := (roundHalfEvenQ (x * 10) : ℚ) / 10

open Classical in
/-- Round-half-to-even of a real to an integer. -/
noncomputable def roundHalfEvenR (y : ℝ) : ℤ :=
  if y - ⌊y⌋ < 1/2 then ⌊y⌋
  else if 1/2 < y - ⌊y⌋ then ⌊y⌋ + 1
  else if ⌊y⌋ % 2 = 0 then ⌊y⌋ else ⌊y⌋ + 1

/-- Python `round(x, 2)` on reals. -/
noncomputable def round2r (x : ℝ) : ℝ := (roundHalfEvenR (x * 100) : ℝ) / 100

namespace HwLayer

/-! Embedding of `hw_layer.py` (the gpiozero/adafruit variant). -/

/-- `get_color_name(rgb)` from `hw_layer.py`, lines 61-69. -/
def get_color_name (rgb : ℕ × ℕ × ℕ) : String :=
  let (r, g, b) := rgb
  if r > 200 ∧ g > 200 ∧ b > 200 then "White"
  else if r < 30 ∧ g < 30 ∧ b < 30 then "Black"
  else if r > g ∧ r > b then "Red"
  else if g > r ∧ g > b then "Green"
  else if b > r ∧ b > g then "Blue"
  else if r > 100 ∧ g > 100 ∧ b < 50 then "Yellow"
  else "Unknown"

/-- Outcome of polling the MLX90640 thermal sensor: either a frame of pixel
temperatures plus the ambient temperature, or an `OSError`/`IOError` raised
during the read (the `except` branch of `read_temperature`). -/
inductive MlxPoll where
  | ok (frame : List ℚ) (ambient : ℚ)
  | busError
deriving DecidableEq

/-- `read_temperature()` from `hw_layer.py`, lines 71-81: result is the
`(ambient, object)` pair of the returned dict.  `sensor = none` models
`mlx_sensor` being `None` (falls through to the simulated 25.0/25.0 pair). -/
def read_temperature (sensor : Option MlxPoll) : ℚ × ℚ :=
  match sensor with
  | some (MlxPoll.ok frame ambient) => (round1q ambient, round1q (frame.sum / 768))
  | some MlxPoll.busError => (0, 0)
  | none => (25, 25)

/-- `read_color()` from `hw_layer.py`: `none` models `tcs_sensor = None`,
`some none` a raised exception during the read, `some (some rgb)` a
successful read of `color_rgb_bytes`. -/
def read_color (sensor : Option (Option (ℕ × ℕ × ℕ))) : String :=
  match sensor with
  | some (some rgb) => get_color_name rgb
  | some none => "Error"
  | none => "N/A"

/-- `buzzer_beep(duration)` from `hw_layer.py`: `some duration` when the
buzzer pulses once for `duration`, `none` when `buzzer_obj` is absent and the
call is a no-op. -/
def buzzer_beep (buzzer : Option Unit) (duration : ℚ) : Option ℚ :=
  buzzer.map fun _ => duration

/-- `read_button()` from `hw_layer.py`, lines 93-96: with a button object the
result is `not button_obj.is_pressed`; with `button_obj = None` it is `True`. -/
def read_button (button : Option Bool) : Bool :=
  match button with
  | some isPressed => !isPressed
  | none => true

/-- The envelope filter of `measure_distance`: `2 < r < 400` (cm). -/
def envelope (r : ℚ) : Bool := decide (2 < r ∧ r < 400)

/-- `valid_readings` of `measure_distance`, line 103. -/
def valid_readings (readings : List ℚ) : List ℚ := readings.filter envelope

/-- `statistics.mean` on a list of rationals. -/
def listMean (l : List ℚ) : ℚ := l.sum / (l.length : ℚ)

/-- The sample variance used by `statistics.stdev` (denominator `n - 1`). -/
def sampleVar (l : List ℚ) : ℚ :=
  (l.map fun x => (x - listMean l) ^ 2).sum / ((l.length : ℚ) - 1)

/-- `statistics.stdev`: square root of the sample variance. -/
noncomputable def sampleStdev (l : List ℚ) : ℝ := Real.sqrt ((sampleVar l : ℚ) : ℝ)

/-- The default of the `samples` parameter of `measure_distance`. -/
def measure_distance_default_samples : ℕ := 10

/-- `measure_distance(samples)` from `hw_layer.py`, lines 98-107.  The
`samples` raw readings (already scaled by 100 to centimetres, line 102) are
passed as the list `readings`; `distance_sensor_obj` is the `Option` guard of
line 99. -/
noncomputable def measure_distance (distance_sensor_obj : Option Unit)
    (readings : List ℚ) : ℚ × ℝ :=
  match distance_sensor_obj with
  | none => (0, 0)
  | some _ =>
    let valid := valid_readings readings
    if valid = [] then (0, 0)
    else (round2q (listMean valid),
          round2r (if 1 < valid.length then sampleStdev valid else 0))

/-- `analyze_absorption(sigma)` from `hw_layer.py`, lines 109-112. -/
def analyze_absorption (sigma : ℚ) : String :=
  if sigma > 1.2 then "High"
  else if sigma > 0.5 then "Medium"
  else "Low"

/-- `cleanup_gpio_pins()` from `hw_layer.py`, lines 17-23: closes the pin
factory if one is set, swallowing every exception; afterwards no open factory
remains in use. -/
def cleanup_gpio_pins (factory : Option Unit) : Option Unit :=
  match factory with
  | some _ => none
  | none => none

end HwLayer

namespace HwLayerCg

/-! Embedding of `hw_layer_chatgpt.py` (the lgpio variant). -/

/-- `TRIG` pin number. -/
def TRIG : ℕ := 23
/-- `ECHO` pin number. -/
def ECHO : ℕ := 24
/-- `BUZZER` pin number. -/
def BUZZER : ℕ := 18
/-- `BUTTON` pin number. -/
def BUTTON : ℕ := 17

/-- Manager state: whether `gpio_handle` is set, and which pins are currently
claimed on it. -/
structure HwState where
  handle : Bool
  claimed : List ℕ
deriving DecidableEq

/-- Observable events of `init_gpio` / `cleanup_gpio`. -/
inductive GEvent where
  | closeOld
  | openOk
  | claimOut (pin : ℕ)
  | claimIn (pin : ℕ)
  | openFail
  | cleanupRun
  | sleepMs (ms : ℕ)
  | openRetryOk
  | openRetryFail
deriving DecidableEq

/-- `cleanup_gpio()` from `hw_layer_chatgpt.py`, lines 84-93: closes the chip
handle when one is open (releasing its pin claims) and records it as absent;
otherwise does nothing.  All exceptions are swallowed. -/
def cleanup_gpio (s : HwState) : HwState :=
  if s.handle then ⟨false, []⟩ else s

/-- The four pins claimed by a fully successful `init_gpio`, in claim order. -/
def allPins : List ℕ := [TRIG, ECHO, BUZZER, BUTTON]

/-- `init_gpio()` from `hw_layer_chatgpt.py`, lines 58-81.  `firstFails`
models the first `gpiochip_open`/claim sequence raising (e.g. "GPIO busy");
`retryFails` models the recovery `gpiochip_open` raising as well.  Returns
the new manager state and the list of observable events.  Note that the
recovery path only reopens the chip handle and never re-runs the
`gpio_claim_output`/`gpio_claim_input` calls. -/
def init_gpio (s : HwState) (firstFails retryFails : Bool) : HwState × List GEvent :=
  let closeEvts : List GEvent := if s.handle then [GEvent.closeOld] else []
  if firstFails then
    let s1 := cleanup_gpio s
    if retryFails then
      (⟨false, s1.claimed⟩,
        closeEvts ++ [GEvent.openFail, GEvent.cleanupRun, GEvent.sleepMs 500,
          GEvent.openRetryFail])
    else
      (⟨true, s1.claimed⟩,
        closeEvts ++ [GEvent.openFail, GEvent.cleanupRun, GEvent.sleepMs 500,
          GEvent.openRetryOk])
  else
    (⟨true, allPins⟩,
      closeEvts ++ [GEvent.openOk, GEvent.claimOut TRIG, GEvent.claimIn ECHO,
        GEvent.claimOut BUZZER, GEvent.claimIn BUTTON])

/-- One busy-wait loop of `measure_distance`: starting at poll instant `t`,
keep polling while the echo line reads `lvl`; return the instant of the first
differing read, or `none` when `fuel` polls were not enough (the loop is
still running). -/
def echoWait (echo : ℕ → ℕ) (lvl : ℕ) : ℕ → ℕ → Option ℕ
  | _, 0 => none
  | t, fuel + 1 => if echo t = lvl then echoWait echo lvl (t + 1) fuel else some t

/-- `measure_distance()` from `hw_layer_chatgpt.py`, lines 101-131.  `dt` is
the real duration of one poll instant (seconds), `echo` the level of the echo
line at each instant.  Outer `none`: one of the two wait loops is still
running after `fuel` polls; `some none`: the call returned `None` (absent
handle or out-of-envelope distance); `some (some d)`: the call returned the
rounded distance `d` in cm. -/
def measure_distance (handle : Bool) (dt : ℚ) (echo : ℕ → ℕ) (fuel : ℕ) :
    Option (Option ℚ) :=
  if handle = false then some none
  else
    match echoWait echo 0 0 fuel with
    | none => none
    | some startT =>
      match echoWait echo 1 startT fuel with
      | none => none
      | some stopT =>
        let distance : ℚ := (((stopT - startT : ℕ) : ℚ) * dt * 34300) / 2
        if distance ≤ 2 ∨ 400 ≤ distance then some none
        else some (some (round2q distance))

/-- The polling loop of `wait_for_button_press`: keep polling while the
button line reads 1. -/
def buttonWait (button : ℕ → ℕ) : ℕ → ℕ → Option ℕ
  | _, 0 => none
  | t, fuel + 1 => if button t = 1 then buttonWait button (t + 1) fuel else some t

/-- `wait_for_button_press()` from `hw_layer_chatgpt.py`, lines 137-152:
returns `False` immediately when `gpio_handle` is `None`, otherwise polls the
button line until it reads something other than 1 and returns `True`.
`none` means the loop is still polling after `fuel` polls. -/
def wait_for_button_press (handle : Bool) (button : ℕ → ℕ) (fuel : ℕ) :
    Option Bool :=
  if handle = false then some false
  else (buttonWait button 0 fuel).map fun _ => true

/-- Buzzer actuation events. -/
inductive BuzzEvent where
  | write (lvl : ℕ)
  | sleepSec (d : ℚ)
deriving DecidableEq

/-- `beep(duration)` from `hw_layer_chatgpt.py`, lines 155-167: warns and
returns (no events) when the handle is absent, otherwise drives the buzzer
line high, sleeps, and drives it low. -/
def beep (handle : Bool) (duration : ℚ) : List BuzzEvent :=
  if handle = false then []
  else [BuzzEvent.write 1, BuzzEvent.sleepSec duration, BuzzEvent.write 0]

/-- Outcome of one access to the MLX90614 over SMBus: absent
library/sensor, a bus error raised during the read, or a successful
`(ambient, object)` pair. -/
inductive MlxAccess where
  | absent
  | busError
  | ok (ambient object : ℚ)
deriving DecidableEq

/-- `read_temperature()` from `hw_layer_chatgpt.py`, lines 173-183: every
exception (missing driver, absent sensor, transient bus error) is caught by
the single `except` and yields `(None, None)`; a successful access yields the
two temperatures rounded to 2 digits. -/
def read_temperature (access : MlxAccess) : Option ℚ × Option ℚ :=
  match access with
  | MlxAccess.ok ambient object => (some (round2q ambient), some (round2q object))
  | MlxAccess.absent => (none, none)
  | MlxAccess.busError => (none, none)

/-- `read_color()` from `hw_layer_chatgpt.py`: a successful access returns
the raw channel data `(r, g, b, clear, color_temp, lux)`; any exception is
caught and yields `None`. -/
def read_color (access : Option (ℕ × ℕ × ℕ × ℕ × ℚ × ℚ)) :
    Option (ℕ × ℕ × ℕ × ℕ × ℚ × ℚ) :=
  access

/-- `oled_display_message(disp, lines)` from `hw_layer_chatgpt.py`: returns
immediately when `disp` is `None`, otherwise draws the first four lines. -/
def oled_display_message (disp : Option Unit) (lines : List String) :
    Option (List String) :=
  disp.map fun _ => lines.take 4

end HwLayerCg

/-! Specification-side model, for the refinement statement of the filtered
distance measurement. -/

/-- Definition following the words of the specification (section 4.2):
`measureFiltered` discards any reading outside (2, 400) cm, and if at least
one survives computes mean and sample standard deviation, each rounded to 2
decimal digits; it is `none` (`Unavailable`) when none survive. -/
noncomputable def measureFiltered (readings : List ℚ) : Option (ℚ × ℝ) :=
  let valid := readings.filter HwLayer.envelope
  if valid = [] then none
  else some (round2q (HwLayer.listMean valid), round2r (HwLayer.sampleStdev valid))

/-- How `hw_layer.py` encodes a `Reading` on the wire of `measure_distance`:
`Unavailable` is the sentinel pair `(0, 0)`, a successful reading is the pair
itself. -/
noncomputable def encodeReading (r : Option (ℚ × ℝ)) : ℚ × ℝ :=
  match r with
  | none => (0, 0)
  | some p => p

/-- A test echo trace: low for 5 poll instants, high for the next 5, low
afterwards (a 5-instant echo pulse). -/
def riseFallEcho : ℕ → ℕ := fun t => if t < 5 then 0 else if t < 10 then 1 else 0

/-! Helper lemmas. -/

lemma roundHalfEvenQ_ge_floor (y : ℚ) : ⌊y⌋ ≤ roundHalfEvenQ y := by
  unfold roundHalfEvenQ
  dsimp only
  split_ifs <;> omega

lemma round2q_ge_two {x : ℚ} (hx : 2 < x) : 2 ≤ round2q x := by
  have h1 : (200 : ℤ) ≤ ⌊x * 100⌋ := by
    rw [Int.le_floor]; push_cast; linarith
  have h2 : (200 : ℤ) ≤ roundHalfEvenQ (x * 100) :=
    le_trans h1 (roundHalfEvenQ_ge_floor _)
  have h3 : (200 : ℚ) ≤ (roundHalfEvenQ (x * 100) : ℚ) := by exact_mod_cast h2
  unfold round2q
  linarith

lemma two_mul_length_lt_sum : ∀ l : List ℚ, l ≠ [] → (∀ r ∈ l, 2 < r) →
    2 * (l.length : ℚ) < l.sum := by
  intro l
  induction l with
  | nil => intro h; exact absurd rfl h
  | cons x xs ih =>
    intro _ hmem
    by_cases hxs : xs = []
    · subst hxs
      simpa using hmem x (by simp)
    · have h1 := ih hxs fun r hr => hmem r (List.mem_cons_of_mem _ hr)
      have h2 := hmem x (List.mem_cons_self x xs)
      simp only [List.sum_cons, List.length_cons]
      push_cast
      linarith

lemma listMean_gt_two {l : List ℚ} (hne : l ≠ []) (h : ∀ r ∈ l, 2 < r) :
    2 < HwLayer.listMean l := by
  have hlen0 : l.length ≠ 0 := by simpa using hne
  have hlen : (0 : ℚ) < (l.length : ℚ) := by
    exact_mod_cast Nat.pos_of_ne_zero hlen0
  unfold HwLayer.listMean
  rw [lt_div_iff₀ hlen]
  have := two_mul_length_lt_sum l hne h
  linarith

lemma valid_mem_gt_two {rs : List ℚ} {r : ℚ}
    (h : r ∈ HwLayer.valid_readings rs) : 2 < r := by
  unfold HwLayer.valid_readings at h
  have h2 := (List.mem_filter.mp h).2
  unfold HwLayer.envelope at h2
  exact (of_decide_eq_true h2).1

lemma sampleVar_singleton (x : ℚ) : HwLayer.sampleVar [x] = 0 := by
  unfold HwLayer.sampleVar
  simp

lemma valid_readings_idem (rs : List ℚ) :
    HwLayer.valid_readings (HwLayer.valid_readings rs) = HwLayer.valid_readings rs := by
  unfold HwLayer.valid_readings
  rw [List.filter_filter]
  simp [Bool.and_self]

lemma echoWait_const_none (lvl : ℕ) :
    ∀ fuel t, HwLayerCg.echoWait (fun _ => lvl) lvl t fuel = none := by
  intro fuel
  induction fuel with
  | zero => intro t; rfl
  | succ n ih => intro t; simpa [HwLayerCg.echoWait] using ih (t + 1)

/-! Claim theorems. -/

/-- Claim C5: `analyze_absorption` is a pure, total three-way threshold
function: `High` iff `stddev > 1.2`, `Medium` iff `0.5 < stddev ≤ 1.2`,
`Low` otherwise; boundaries map to the lower bucket. -/
theorem claim_C5_classify_absorption : ∀ sigma : ℚ,
    (HwLayer.analyze_absorption sigma = "High" ↔ 1.2 < sigma)
    ∧ (HwLayer.analyze_absorption sigma = "Medium" ↔ 0.5 < sigma ∧ sigma ≤ 1.2)
    ∧ (HwLayer.analyze_absorption sigma = "Low" ↔ sigma ≤ 0.5)
    ∧ HwLayer.analyze_absorption 1.2 = "Medium"
    ∧ HwLayer.analyze_absorption 0.5 = "Low"
    ∧ HwLayer.analyze_absorption 1.3 = "High" := by
  intro sigma
  refine ⟨?_, ?_, ?_, by norm_num [HwLayer.analyze_absorption],
    by norm_num [HwLayer.analyze_absorption], by norm_num [HwLayer.analyze_absorption]⟩
  · unfold HwLayer.analyze_absorption
    split_ifs with h1 h2
    · exact iff_of_true rfl h1
    · exact iff_of_false (by decide) h1
    · exact iff_of_false (by decide) h1
  · unfold HwLayer.analyze_absorption
    split_ifs with h1 h2
    · exact iff_of_false (by decide) fun hc => absurd hc.2 (not_le.mpr h1)
    · exact iff_of_true rfl ⟨h2, le_of_not_lt h1⟩
    · exact iff_of_false (by decide) fun hc => h2 hc.1
  · unfold HwLayer.analyze_absorption
    split_ifs with h1 h2
    · exact iff_of_false (by decide)
        (not_le.mpr (lt_trans (by norm_num) h1))
    · exact iff_of_false (by decide) (not_le.mpr h2)
    · exact iff_of_true rfl (le_of_not_lt h2)

/-- Claim C6: `get_color_name` applies its rules in a fixed priority order
with first match winning: White, Black, dominant-channel Red/Green/Blue,
Yellow, Unknown; the concrete instances of the claim; and (120,130,20) is
Green (not Yellow) because the dominance rule fires first. -/
theorem claim_C6_color_priority : ∀ r g b : ℕ,
    ((r > 200 ∧ g > 200 ∧ b > 200) → HwLayer.get_color_name (r, g, b) = "White")
    ∧ (¬(r > 200 ∧ g > 200 ∧ b > 200) ∧ (r < 30 ∧ g < 30 ∧ b < 30) →
        HwLayer.get_color_name (r, g, b) = "Black")
    ∧ (¬(r > 200 ∧ g > 200 ∧ b > 200) ∧ ¬(r < 30 ∧ g < 30 ∧ b < 30)
        ∧ (r > g ∧ r > b) → HwLayer.get_color_name (r, g, b) = "Red")
    ∧ (¬(r > 200 ∧ g > 200 ∧ b > 200) ∧ ¬(r < 30 ∧ g < 30 ∧ b < 30)
        ∧ ¬(r > g ∧ r > b) ∧ (g > r ∧ g > b) →
        HwLayer.get_color_name (r, g, b) = "Green")
    ∧ (¬(r > 200 ∧ g > 200 ∧ b > 200) ∧ ¬(r < 30 ∧ g < 30 ∧ b < 30)
        ∧ ¬(r > g ∧ r > b) ∧ ¬(g > r ∧ g > b) ∧ (b > r ∧ b > g) →
        HwLayer.get_color_name (r, g, b) = "Blue")
    ∧ (¬(r > 200 ∧ g > 200 ∧ b > 200) ∧ ¬(r < 30 ∧ g < 30 ∧ b < 30)
        ∧ ¬(r > g ∧ r > b) ∧ ¬(g > r ∧ g > b) ∧ ¬(b > r ∧ b > g)
        ∧ (r > 100 ∧ g > 100 ∧ b < 50) →
        HwLayer.get_color_name (r, g, b) = "Yellow")
    ∧ (¬(r > 200 ∧ g > 200 ∧ b > 200) ∧ ¬(r < 30 ∧ g < 30 ∧ b < 30)
        ∧ ¬(r > g ∧ r > b) ∧ ¬(g > r ∧ g > b) ∧ ¬(b > r ∧ b > g)
        ∧ ¬(r > 100 ∧ g > 100 ∧ b < 50) →
        HwLayer.get_color_name (r, g, b) = "Unknown")
    ∧ HwLayer.get_color_name (255, 255, 255) = "White"
    ∧ HwLayer.get_color_name (10, 10, 10) = "Black"
    ∧ HwLayer.get_color_name (250, 10, 10) = "Red"
    ∧ HwLayer.get_color_name (120, 130, 20) = "Green"
    ∧ HwLayer.get_color_name (120, 130, 20) ≠ "Yellow" := by
  intro r g b
  refine ⟨?_, ?_, ?_, ?_, ?_, ?_, ?_, by decide, by decide, by decide,
    by decide, by decide⟩
  all_goals
    intro h
    simp only [HwLayer.get_color_name]
    split_ifs <;> first | rfl | (exfalso; omega)

/-- Witness for claim C6: each priority rule discharged at a concrete input. -/
theorem claim_C6_color_priority_witness :
    HwLayer.get_color_name (255, 255, 255) = "White"
    ∧ HwLayer.get_color_name (10, 10, 10) = "Black"
    ∧ HwLayer.get_color_name (250, 10, 10) = "Red"
    ∧ HwLayer.get_color_name (120, 130, 20) = "Green"
    ∧ HwLayer.get_color_name (10, 20, 120) = "Blue"
    ∧ HwLayer.get_color_name (150, 150, 20) = "Yellow"
    ∧ HwLayer.get_color_name (100, 100, 100) = "Unknown" :=
  ⟨(claim_C6_color_priority 255 255 255).1 (by decide),
   (claim_C6_color_priority 10 10 10).2.1 (by decide),
   (claim_C6_color_priority 250 10 10).2.2.1 (by decide),
   (claim_C6_color_priority 120 130 20).2.2.2.1 (by decide),
   (claim_C6_color_priority 10 20 120).2.2.2.2.1 (by decide),
   (claim_C6_color_priority 150 150 20).2.2.2.2.2.1 (by decide),
   (claim_C6_color_priority 100 100 100).2.2.2.2.2.2.1 (by decide)⟩

/-- Claim C8: `cleanup_gpio` is idempotent and total: from every starting
state it leaves the handle recorded as absent, calling it twice equals
calling it once, and calling it on the never-initialized state is safe; the
gpiozero `cleanup_gpio_pins` is likewise idempotent. -/
theorem claim_C8_cleanup_idempotent : ∀ s : HwLayerCg.HwState,
    HwLayerCg.cleanup_gpio (HwLayerCg.cleanup_gpio s) = HwLayerCg.cleanup_gpio s
    ∧ (HwLayerCg.cleanup_gpio s).handle = false
    ∧ HwLayerCg.cleanup_gpio ⟨false, []⟩ = ⟨false, []⟩
    ∧ ∀ f, HwLayer.cleanup_gpio_pins (HwLayer.cleanup_gpio_pins f) =
        HwLayer.cleanup_gpio_pins f := by
  intro s
  obtain ⟨h, c⟩ := s
  refine ⟨?_, ?_, rfl, fun f => by cases f <;> rfl⟩
  · cases h <;> simp [HwLayerCg.cleanup_gpio]
  · cases h <;> simp [HwLayerCg.cleanup_gpio]

/-- Claim C9: with the physical button line unavailable, `read_button` in
`hw_layer.py` returns the fixed default `True` while `wait_for_button_press`
in `hw_layer_chatgpt.py` returns the fixed default `False`: the two
reference implementations disagree at this point of the interface. -/
theorem claim_C9_button_defaults_differ : ∀ (line : ℕ → ℕ) (fuel : ℕ),
    HwLayer.read_button none = true
    ∧ HwLayerCg.wait_for_button_press false line fuel = some false
    ∧ some (HwLayer.read_button none) ≠
        HwLayerCg.wait_for_button_press false line fuel := by
  intro line fuel
  refine ⟨rfl, rfl, ?_⟩
  simp [HwLayer.read_button, HwLayerCg.wait_for_button_press]

/-- Claim C10: `measure_distance` in `hw_layer.py` returns the identical
pair `(0, 0)` when the sensor object is absent, when the sample list is
empty, and when every reading is discarded by the envelope filter, so these
three situations cannot be told apart from the returned pair. -/
theorem claim_C10_distance_sentinel :
    (∀ rs : List ℚ, HwLayer.measure_distance none rs = (0, 0))
    ∧ HwLayer.measure_distance (some ()) [] = (0, 0)
    ∧ ∀ rs : List ℚ, HwLayer.valid_readings rs = [] →
        HwLayer.measure_distance (some ()) rs = (0, 0) := by
  refine ⟨fun rs => rfl, ?_, fun rs h => ?_⟩
  · simp [HwLayer.measure_distance, HwLayer.valid_readings]
  · simp [HwLayer.measure_distance, h]

/-- Witness for claim C10: a sample set in which every reading falls outside
the (2, 400) envelope produces the sentinel pair. -/
theorem claim_C10_distance_sentinel_witness :
    HwLayer.valid_readings [1, 500] = []
    ∧ HwLayer.measure_distance (some ()) [1, 500] = (0, 0) :=
  ⟨by decide, claim_C10_distance_sentinel.2.2 [1, 500] (by decide)⟩

/-- Claim C3 (code bug): after a failed first acquisition, `init_gpio`
cleans up, sleeps 500 ms and retries the chip open exactly once; but when
that retry succeeds the manager is left with the handle set and NO pins
claimed (the retry path omits every `gpio_claim_*` call), contradicting the
requirement that the recovered state have all four pins claimed.  The
degraded branch (retry also fails) and the non-failing branch behave as the
claim states. -/
theorem claim_C3_init_retry_skips_pin_claims :
    HwLayerCg.init_gpio ⟨false, []⟩ true false =
      (⟨true, []⟩, [HwLayerCg.GEvent.openFail, HwLayerCg.GEvent.cleanupRun,
        HwLayerCg.GEvent.sleepMs 500, HwLayerCg.GEvent.openRetryOk])
    ∧ (HwLayerCg.init_gpio ⟨false, []⟩ true false).1.claimed ≠ HwLayerCg.allPins
    ∧ HwLayerCg.init_gpio ⟨false, []⟩ true true =
      (⟨false, []⟩, [HwLayerCg.GEvent.openFail, HwLayerCg.GEvent.cleanupRun,
        HwLayerCg.GEvent.sleepMs 500, HwLayerCg.GEvent.openRetryFail])
    ∧ HwLayerCg.init_gpio ⟨false, []⟩ false false =
      (⟨true, HwLayerCg.allPins⟩, [HwLayerCg.GEvent.openOk,
        HwLayerCg.GEvent.claimOut 23, HwLayerCg.GEvent.claimIn 24,
        HwLayerCg.GEvent.claimOut 18, HwLayerCg.GEvent.claimIn 17]) := by
  refine ⟨by decide, by decide, by decide, by decide⟩

/-- Claim C4 (amended): with the handle never initialized, every adapter of
`hw_layer_chatgpt.py` returns its documented absence value without raising
(`None`, `(None, None)`, `False`, no actuation, no render), and in
`hw_layer.py` distance returns `(0, 0)`, color returns `"N/A"`, the buzzer
is a no-op and the button returns its default; but the `hw_layer.py`
thermal adapter returns the simulated pair `(25.0, 25.0)` rather than an
unavailable marker. -/
theorem claim_C4_degraded_adapters : ∀ (dt : ℚ) (echo line : ℕ → ℕ)
    (fuel : ℕ) (d : ℚ) (lines : List String) (rs : List ℚ),
    HwLayerCg.measure_distance false dt echo fuel = some none
    ∧ HwLayerCg.read_temperature HwLayerCg.MlxAccess.absent = (none, none)
    ∧ HwLayerCg.read_color none = none
    ∧ HwLayerCg.wait_for_button_press false line fuel = some false
    ∧ HwLayerCg.beep false d = []
    ∧ HwLayerCg.oled_display_message none lines = none
    ∧ HwLayer.measure_distance none rs = (0, 0)
    ∧ HwLayer.read_temperature none = (25, 25)
    ∧ HwLayer.read_color none = "N/A"
    ∧ HwLayer.buzzer_beep none d = none
    ∧ HwLayer.read_button none = true := by
  intro dt echo line fuel d lines rs
  exact ⟨rfl, rfl, rfl, rfl, rfl, rfl, rfl, rfl, rfl, rfl, rfl⟩

/-- Counterexample for claim C4 as stated: with the thermal sensor absent,
`read_temperature` in `hw_layer.py` returns `(25.0, 25.0)`, which is exactly
the value of a genuine successful reading of a 25-degree scene, so the
degraded thermal read is not an `Unavailable` result. -/
theorem claim_C4_counterexample :
    HwLayer.read_temperature none = (25, 25)
    ∧ HwLayer.read_temperature
        (some (HwLayer.MlxPoll.ok (List.replicate 768 25) 25)) = (25, 25) := by
  refine ⟨rfl, ?_⟩
  show (round1q 25, round1q ((List.replicate 768 (25 : ℚ)).sum / 768)) = (25, 25)
  rw [List.sum_replicate]
  norm_num [round1q, roundHalfEvenQ]

/-- Claim C7 (amended): `hw_layer.py` encodes a transient bus error as the
bare pair `(0, 0)` and an absent sensor as the simulated pair `(25, 25)`;
`hw_layer_chatgpt.py` returns `(None, None)` both for an absent sensor and
for a transient bus error, with no retry and no distinct `Error(reason)`
tag; a successful read returns the rounded temperature pair. -/
theorem claim_C7_thermal_error_encoding : ∀ a o : ℚ,
    HwLayer.read_temperature (some HwLayer.MlxPoll.busError) = (0, 0)
    ∧ HwLayer.read_temperature none = (25, 25)
    ∧ HwLayerCg.read_temperature HwLayerCg.MlxAccess.absent = (none, none)
    ∧ HwLayerCg.read_temperature HwLayerCg.MlxAccess.busError = (none, none)
    ∧ HwLayerCg.read_temperature HwLayerCg.MlxAccess.absent =
        HwLayerCg.read_temperature HwLayerCg.MlxAccess.busError
    ∧ HwLayerCg.read_temperature (HwLayerCg.MlxAccess.ok a o) =
        (some (round2q a), some (round2q o)) :=
  fun a o => ⟨rfl, rfl, rfl, rfl, rfl, rfl⟩

/-- Counterexample for claim C7 as stated: a transient bus error in
`hw_layer.py` is encoded as the bare zero pair `(0, 0)`, the same value a
genuine reading of a zero-degree scene produces, so the failure is encoded
as a bare zero temperature value rather than a tagged error. -/
theorem claim_C7_counterexample :
    HwLayer.read_temperature (some HwLayer.MlxPoll.busError) = (0, 0)
    ∧ HwLayer.read_temperature
        (some (HwLayer.MlxPoll.ok (List.replicate 768 0) 0)) = (0, 0) := by
  refine ⟨rfl, ?_⟩
  show (round1q 0, round1q ((List.replicate 768 (0 : ℚ)).sum / 768)) = (0, 0)
  rw [List.sum_replicate]
  norm_num [round1q, roundHalfEvenQ]

/-- Claim C2 (amended): the echo-wait loops of `measure_distance` in
`hw_layer_chatgpt.py` have no timeout: with the handle initialized, if the
echo line never rises (constantly 0) or never falls (constantly 1) the call
never completes, for every poll bound; there is no `Error(timeout)` result.
When the line does rise and fall the call terminates with the computed,
rounded distance, as on the test pulse `riseFallEcho`. -/
theorem claim_C2_echo_wait_unbounded : ∀ (dt : ℚ) (fuel : ℕ),
    HwLayerCg.measure_distance true dt (fun _ => 0) fuel = none
    ∧ HwLayerCg.measure_distance true dt (fun _ => 1) fuel = none
    ∧ HwLayerCg.measure_distance true (1/1000) riseFallEcho 100 =
        some (some (343/4)) := by
  intro dt fuel
  refine ⟨?_, ?_, ?_⟩
  · simp [HwLayerCg.measure_distance, echoWait_const_none]
  · cases fuel with
    | zero => rfl
    | succ n =>
      simp [HwLayerCg.measure_distance, HwLayerCg.echoWait, echoWait_const_none]
  · have hrise : HwLayerCg.echoWait riseFallEcho 0 0 100 = some 5 := by decide
    have hfall : HwLayerCg.echoWait riseFallEcho 1 5 100 = some 10 := by decide
    simp only [HwLayerCg.measure_distance, hrise, hfall]
    norm_num [round2q, roundHalfEvenQ]

/-- Counterexample for claim C2 as stated: on a disconnected sensor whose
echo line never rises, `measure_distance` never returns, however many polls
it is allowed, so the call is not bounded by any timeout. -/
theorem claim_C2_counterexample :
    ¬ ∃ (fuel : ℕ) (r : Option ℚ),
        HwLayerCg.measure_distance true 1 (fun _ => 0) fuel = some r := by
  rintro ⟨fuel, r, h⟩
  have h0 : HwLayerCg.measure_distance true 1 (fun _ => 0) fuel = none := by
    simp [HwLayerCg.measure_distance, echoWait_const_none]
  rw [h0] at h
  exact Option.noConfusion h

/-- Claim C1: `measure_distance` in `hw_layer.py` equals the
specification's `measureFiltered` under the code's encoding of
`Unavailable` as the sentinel `(0, 0)`: readings outside (2, 400) cm are
discarded (the result depends only on the surviving readings), the result
is `Unavailable` exactly when no reading survives, a successful result is
the mean and sample standard deviation of the survivors rounded to 2
digits, the sentinel is disjoint from every successful result (whose first
component is at least 2), and the default sample count is 10. -/
theorem claim_C1_measure_filtered_refines : ∀ rs : List ℚ,
    HwLayer.measure_distance (some ()) rs = encodeReading (measureFiltered rs)
    ∧ (measureFiltered rs = none ↔ HwLayer.valid_readings rs = [])
    ∧ HwLayer.measure_distance (some ()) rs =
        HwLayer.measure_distance (some ()) (HwLayer.valid_readings rs)
    ∧ (HwLayer.valid_readings rs = [] ∨
        2 ≤ (HwLayer.measure_distance (some ()) rs).1)
    ∧ HwLayer.measure_distance_default_samples = 10 := by
  intro rs
  have hfe : rs.filter HwLayer.envelope = HwLayer.valid_readings rs := rfl
  refine ⟨?_, ?_, ?_, ?_, rfl⟩
  · by_cases hv : HwLayer.valid_readings rs = []
    · simp [HwLayer.measure_distance, measureFiltered, encodeReading, hfe, hv]
    · have hlen0 : HwLayer.valid_readings rs ≠ [] := hv
      rcases Nat.lt_or_ge 1 (HwLayer.valid_readings rs).length with hgt | hle
      · simp [HwLayer.measure_distance, measureFiltered, encodeReading, hfe, hv, hgt]
      · have hpos : (HwLayer.valid_readings rs).length ≠ 0 := by
          simpa using hlen0
        have h1 : (HwLayer.valid_readings rs).length = 1 := by omega
        obtain ⟨x, hx⟩ := List.length_eq_one.mp h1
        have hvar : HwLayer.sampleVar (HwLayer.valid_readings rs) = 0 := by
          rw [hx]; exact sampleVar_singleton x
        have hsd : HwLayer.sampleStdev (HwLayer.valid_readings rs) = 0 := by
          unfold HwLayer.sampleStdev
          rw [hvar]
          simp
        simp [HwLayer.measure_distance, measureFiltered, encodeReading, hfe,
          hv, h1, hsd]
  · by_cases hv : HwLayer.valid_readings rs = [] <;>
      simp [measureFiltered, hfe, hv]
  · simp only [HwLayer.measure_distance]
    rw [valid_readings_idem]
  · by_cases hv : HwLayer.valid_readings rs = []
    · exact Or.inl hv
    · refine Or.inr ?_
      have hmean : 2 < HwLayer.listMean (HwLayer.valid_readings rs) :=
        listMean_gt_two hv fun r hr => valid_mem_gt_two hr
      have hfst : (HwLayer.measure_distance (some ()) rs).1 =
          round2q (HwLayer.listMean (HwLayer.valid_readings rs)) := by
        simp [HwLayer.measure_distance, hv]
      rw [hfst]
      exact round2q_ge_two hmean
